import Mathlib

/-!
Verification model of the kperf service-measurement engine
(`pkg/command/service/measure.go`, function `MeasureServices` and its helpers
`sortSlice`, `getPodCondition`, `getContainerStatus`).

Modelling conventions:
* Timestamps are modelled as `Int` (Unix seconds).  The source truncates every
  timestamp to whole seconds via `Rfc3339Copy()` before subtracting, so every
  duration is a whole number of seconds; `Duration.Seconds()` (a float64 in Go)
  is modelled as the exact rational cast of that integer, and
  `int(d.Seconds())` is the integer itself.
* Go float64 accumulation (the per-stage sums and the `SvcReadyTime` sample
  list) is modelled with exact rationals `ℚ`.
* A fallible collaborator lookup `(obj, err)` is modelled as
  `Except String α` where the `String` is the Go error message (the source
  inspects it only through `strings.Contains(err.Error(), "not found")`).
* The per-target state of all external collaborators at the moment the worker
  handles the target is a `TargetEnv` record: one response per lookup the
  resolver chain performs, in chain order.
* Goroutine scheduling is modelled by quantifying over the assignment of queue
  items to workers (each worker receives the sub-list of channel items it
  consumed, in order).
-/

/-- Response of `servingClient.Services(ns).Get` (measure.go:197): creation
timestamp, the `IsReady()` predicate, and the `ConfigurationsReady` and
`RoutesReady` condition transition times read at measure.go:220-222. -/
structure SvcSnapshot where
  created : Int
  ready : Bool
  configurationsReadyTime : Int
  routesReadyTime : Int
deriving DecidableEq

/-- Response of `servingClient.Configurations(ns).Get` (measure.go:228). -/
structure CfgSnapshot where
  latestReadyRevisionName : String
deriving DecidableEq

/-- Response of `servingClient.Revisions(ns).Get` (measure.go:238): creation
time and the `Ready` condition transition time (measure.go:247-248). -/
structure RevSnapshot where
  created : Int
  readyTime : Int
deriving DecidableEq

/-- One pod returned by the pod list (measure.go:252): creation timestamp, the
condition array (type, lastTransitionTime) searched by `getPodCondition`, and
the container statuses (name, running-start time) searched by
`getContainerStatus`. -/
structure PodSnapshot where
  created : Int
  conditions : List (String × Int)
  containerStatuses : List (String × Int)
deriving DecidableEq

/-- Response of `Deployments(ns).Get` (measure.go:262). -/
structure DeploySnapshot where
  created : Int
deriving DecidableEq

/-- Response of `PodAutoscalers(ns).Get` (measure.go:325): creation time and
the `Active` condition transition time (measure.go:333-334). -/
structure KpaSnapshot where
  created : Int
  activeTime : Int
deriving DecidableEq

/-- Response of `ServerlessServices(ns).Get` (measure.go:337): creation time
and the three condition transition times read at measure.go:345-348. -/
structure SksSnapshot where
  created : Int
  activatorEndpointsPopulatedTime : Int
  endpointsPopulatedTime : Int
  readyTime : Int
deriving DecidableEq

/-- Response of `Ingresses(ns).Get` (measure.go:353): creation time and the
`NetworkConfigured` and `LoadBalancerReady` condition times
(measure.go:361-363). -/
structure IngressSnapshot where
  created : Int
  networkConfiguredTime : Int
  loadBalancerReadyTime : Int
deriving DecidableEq

/-- State of the external collaborators for one target, one field per lookup
the resolver chain performs, in chain order (measure.go:197-360). -/
structure TargetEnv where
  svc : Except String SvcSnapshot
  cfg : Except String CfgSnapshot
  rev : Except String RevSnapshot
  pods : Except String (List PodSnapshot)
  deployment : Except String DeploySnapshot
  kpa : Except String KpaSnapshot
  sks : Except String SksSnapshot
  ingress : Except String IngressSnapshot

/-- Embedding of `getPodCondition` (measure.go:727-737): linear scan of the
condition array for the first entry of the requested type; `none` models the
`(-1, nil)` absent result, `some t` the found condition's transition time. -/
def getPodCondition (conds : List (String × Int)) (conditionType : String) :
    Option Int :=
  match conds with
  | [] => none
  | c :: rest =>
    if c.1 = conditionType then some c.2 else getPodCondition rest conditionType

/-- Embedding of `getContainerStatus` (measure.go:741-749): linear scan of the
container statuses for the first entry with the requested name; the caller
reads `State.Running.StartedAt`, modelled as the carried `Int`. -/
def getContainerStatus (statuses : List (String × Int)) (name : String) :
    Option Int :=
  match statuses with
  | [] => none
  | s :: rest =>
    if s.1 = name then some s.2 else getContainerStatus rest name

/-- Embedding of `strings.HasPrefix`-style scan used for
`strings.Contains(err.Error(), "not found")` (measure.go:200):
`hasSubstring hay sub` is true iff `sub` occurs contiguously in `hay`. -/
def hasSubstring (hay sub : List Char) : Bool :=
  match hay with
  | [] => sub.isEmpty
  | c :: t => if sub.isPrefixOf (c :: t) then true else hasSubstring t sub

/-- Embedding of `strings.Contains s sub` (measure.go:200). -/
def goContains (s sub : String) : Bool :=
  hasSubstring s.toList sub.toList

/-- Embedding of `strings.Split s sep` for a one-character separator
(measure.go:716, 719): splits on every occurrence, preserving empty
segments; the empty string yields one empty segment. -/
def splitOnChar (sep : Char) : List Char → List (List Char)
  | [] => [[]]
  | c :: rest =>
    let r := splitOnChar sep rest
    if c = sep then [] :: r
    else
      match r with
      | [] => [[c]]
      | h :: t => (c :: h) :: t

/-- Digit accumulation helper for `goParseInt64`: `none` on the first
non-digit character (Go's `ErrSyntax`). -/
def parseDigitsAux (acc : Nat) : List Char → Option Nat
  | [] => some acc
  | c :: rest =>
    if c.isDigit then parseDigitsAux (acc * 10 + (c.toNat - 48)) rest else none

/-- Digit parsing for `goParseInt64`: an empty digit string is a syntax
error (`none`). -/
def parseDigits : List Char → Option Nat
  | [] => none
  | l => parseDigitsAux 0 l

/-- Largest value of a Go `int64`. -/
def int64Max : Int := 9223372036854775807

/-- Smallest value of a Go `int64`. -/
def int64Min : Int := -9223372036854775808

/-- Embedding of `strconv.ParseInt(s, 10, 64)` as used at measure.go:717,720
with the error ignored: optional sign, then decimal digits; a syntax error
yields the Go zero value 0, a range error yields the clamped
maximum-magnitude `int64` of the appropriate sign. -/
def goParseInt64 (s : List Char) : Int :=
  let signAndDigits : Bool × List Char :=
    match s with
    | '+' :: rest => (false, rest)
    | '-' :: rest => (true, rest)
    | l => (false, l)
  match parseDigits signAndDigits.2 with
  | none => 0
  | some n =>
    let v : Int := if signAndDigits.1 then -(n : Int) else (n : Int)
    if v > int64Max then int64Max
    else if v < int64Min then int64Min
    else v

/-- One formatted result-table row (measure.go:370-387 and 389-408): the
service name, its namespace, and the numeric columns (computed integer-second
durations for `rows`, raw second-precision timestamps for `rawRows`). -/
structure Row where
  name : String
  ns : String
  cols : List Int
deriving DecidableEq

/-- The sort key computation inside the `sortSlice` comparator
(measure.go:716-717): split the row's first cell on `-` and parse segment 1.
`none` models the index-out-of-range panic when the split has fewer than two
segments (a name with no dash); otherwise the key is `goParseInt64` of the
second segment (0 when that segment is not a number, the parse error being
discarded). -/
def rowIndex (s : String) : Option Int :=
  ((splitOnChar '-' s.toList).get? 1).map goParseInt64

/-- Total sort key of a row; meaningful only when `rowIndex` is `some`
(otherwise the Go comparator panics, see `rowIndex`). -/
def rowKey (r : Row) : Int :=
  (rowIndex r.name).getD 0

/-- Comparator order of `sortSlice` on rows: nondecreasing `rowKey`. -/
def rowLe (a b : Row) : Prop := rowKey a ≤ rowKey b

/-- Strict version of `rowLe`, used to state uniqueness of the sorted order
when all keys are distinct. -/
def rowLt (a b : Row) : Prop := rowKey a < rowKey b

/-- Ordered insertion used by the `sortSlice` model. -/
def insertRow (r : Row) : List Row → List Row
  | [] => [r]
  | h :: t => if rowKey r ≤ rowKey h then r :: h :: t else h :: insertRow r t

/-- Embedding of `sortSlice` (measure.go:714-723): reorders the rows so that
the embedded numeric suffix keys are nondecreasing (Go's `sort.Slice` with
`less i j = key i < key j`; the comparison sort is modelled by insertion
sort, which realises the same specification: a permutation of the input
ordered by the comparator). -/
def sortSlice (rows : List Row) : List Row :=
  rows.foldr insertRow []

/-- The sixteen per-stage running sums of `pkg.MeasureResult.Sums`
(accumulated at measure.go:445-460, merged at measure.go:481-497).  Field
names follow the source, including its `UserContrainer` spelling. -/
@[ext]
structure SvcSums where
  SvcConfigurationsReadySum : ℚ
  RevisionReadySum : ℚ
  DeploymentCreatedSum : ℚ
  PodScheduledSum : ℚ
  ContainersReadySum : ℚ
  QueueProxyStartedSum : ℚ
  UserContrainerStartedSum : ℚ
  SvcRoutesReadySum : ℚ
  KpaActiveSum : ℚ
  SksReadySum : ℚ
  SksActivatorEndpointsPopulatedSum : ℚ
  SksEndpointsPopulatedSum : ℚ
  IngressReadySum : ℚ
  IngressNetworkConfiguredSum : ℚ
  IngressLoadBalancerReadySum : ℚ
  SvcReadySum : ℚ
deriving DecidableEq

/-- The classification counters of `pkg.MeasureResult.Service`
(incremented at measure.go:190, 201, 206, 214, 231, ... , 369). -/
@[ext]
structure SvcCounts where
  ReadyCount : Nat
  NotReadyCount : Nat
  NotFoundCount : Nat
  FailCount : Nat
deriving DecidableEq

/-- Total of the four classification counters (measure.go:532). -/
def SvcCounts.total (c : SvcCounts) : Nat :=
  c.ReadyCount + c.NotReadyCount + c.NotFoundCount + c.FailCount

/-- Embedding of `pkg.MeasureResult` as used by the engine: the per-stage
sums, the classification counters, and the `overallReady` sample list
`SvcReadyTime` that feeds the percentile computation. -/
structure MeasureResult where
  Sums : SvcSums
  Service : SvcCounts
  SvcReadyTime : List ℚ
deriving DecidableEq

/-- Zero value of `SvcSums`. -/
def SvcSums.zero : SvcSums :=
  ⟨0, 0, 0, 0, 0, 0, 0, 0, 0, 0, 0, 0, 0, 0, 0, 0⟩

/-- Initial per-worker accumulator (measure.go:176-178:
`pkg.MeasureResult{SvcReadyTime: make([]float64, 0)}`). -/
def MeasureResult.empty : MeasureResult :=
  { Sums := SvcSums.zero
    Service := ⟨0, 0, 0, 0⟩
    SvcReadyTime := [] }

/-- The four pod-derived duration variables declared at measure.go:182-185.
They are declared outside the worker's channel loop, so their values persist
from one queue item to the next within the same worker; they are reassigned
only inside the `len(podList.Items) > 0` branch (measure.go:297-298 and
320-321). -/
structure PodDurs where
  podScheduledDuration : Int
  containersReadyDuration : Int
  queueProxyStartedDuration : Int
  userContrainerStartedDuration : Int
deriving DecidableEq

/-- Go zero value of the four pod-derived duration variables. -/
def PodDurs.zero : PodDurs := ⟨0, 0, 0, 0⟩

/-- A successful measurement of one target: the sixteen computed durations
of the `rows` table (integer seconds) plus the nineteen raw second-precision
timestamps of the `rawRows` table, in source column order. -/
structure Sample where
  svcConfigurationsReadyDuration : Int
  revisionReadyDuration : Int
  deploymentCreatedDuration : Int
  podScheduledDuration : Int
  containersReadyDuration : Int
  queueProxyStartedDuration : Int
  userContrainerStartedDuration : Int
  svcRoutesReadyDuration : Int
  kpaActiveDuration : Int
  sksReadyDuration : Int
  sksActivatorEndpointsPopulatedDuration : Int
  sksEndpointsPopulatedDuration : Int
  ingressReadyDuration : Int
  ingressNetworkConfiguredDuration : Int
  ingressLoadBalancerReadyDuration : Int
  svcReadyDuration : Int
  raw : List Int
deriving DecidableEq

/-- Terminal classification of one queue item, with the `Sample` carried on
the `Ready` outcome. -/
inductive Outcome where
  | ready (smp : Sample)
  | notReady
  | notFound
  | fail
deriving DecidableEq

/-- Locals of one resolver-chain iteration that are declared inside the loop
body and feed the `Ready` sample and raw row: service/revision/deployment
timestamps and durations (measure.go:220-226, 247-249, 271-272) and the
per-iteration pod timestamps (measure.go:274-275, zero when the pod list is
empty). -/
structure ChainLocals where
  svcCreatedTime : Int
  svcConfigurationsReady : Int
  svcRoutesReady : Int
  svcConfigurationsReadyDuration : Int
  svcRoutesReadyDuration : Int
  svcReadyDuration : Int
  revisionCreatedTime : Int
  revisionReadyTime : Int
  revisionReadyDuration : Int
  deploymentCreatedTime : Int
  deploymentCreatedDuration : Int
  podCreatedTime : Int
  podScheduledTime : Int
  containersReadyTime : Int
  queueProxyStartedTime : Int
  userContrainerStartedTime : Int

/-- Tail of the resolver chain after the pod/deployment section
(measure.go:325-366): autoscaler, serverless-service and ingress lookups,
each error classified `NotReady`; on success assembles the `Ready` sample,
whose four pod-derived durations are the current values of the loop-scoped
duration variables `st`. -/
def afterPods (st : PodDurs) (loc : ChainLocals) (env : TargetEnv) :
    Outcome × PodDurs :=
  match env.kpa with
  | .error _ => (.notReady, st)
  | .ok kpaIns =>
    let kpaCreatedTime := kpaIns.created
    let kpaActiveTime := kpaIns.activeTime
    let kpaActiveDuration := kpaActiveTime - kpaCreatedTime
    match env.sks with
    | .error _ => (.notReady, st)
    | .ok sksIns =>
      let sksCreatedTime := sksIns.created
      let sksActivatorEndpointsPopulatedTime :=
        sksIns.activatorEndpointsPopulatedTime
      let sksEndpointsPopulatedTime := sksIns.endpointsPopulatedTime
      let sksReadyTime := sksIns.readyTime
      let sksActivatorEndpointsPopulatedDuration :=
        sksActivatorEndpointsPopulatedTime - sksCreatedTime
      let sksEndpointsPopulatedDuration :=
        sksEndpointsPopulatedTime - sksCreatedTime
      let sksReadyDuration := sksReadyTime - sksCreatedTime
      match env.ingress with
      | .error _ => (.notReady, st)
      | .ok ingressIns =>
        let ingressCreatedTime := ingressIns.created
        let ingressNetworkConfiguredTime := ingressIns.networkConfiguredTime
        let ingressLoadBalancerReadyTime := ingressIns.loadBalancerReadyTime
        let ingressNetworkConfiguredDuration :=
          ingressNetworkConfiguredTime - ingressCreatedTime
        let ingressLoadBalancerReadyDuration :=
          ingressLoadBalancerReadyTime - ingressNetworkConfiguredTime
        let ingressReadyDuration :=
          ingressLoadBalancerReadyTime - ingressCreatedTime
        (.ready
          { svcConfigurationsReadyDuration := loc.svcConfigurationsReadyDuration
            revisionReadyDuration := loc.revisionReadyDuration
            deploymentCreatedDuration := loc.deploymentCreatedDuration
            podScheduledDuration := st.podScheduledDuration
            containersReadyDuration := st.containersReadyDuration
            queueProxyStartedDuration := st.queueProxyStartedDuration
            userContrainerStartedDuration := st.userContrainerStartedDuration
            svcRoutesReadyDuration := loc.svcRoutesReadyDuration
            kpaActiveDuration := kpaActiveDuration
            sksReadyDuration := sksReadyDuration
            sksActivatorEndpointsPopulatedDuration :=
              sksActivatorEndpointsPopulatedDuration
            sksEndpointsPopulatedDuration := sksEndpointsPopulatedDuration
            ingressReadyDuration := ingressReadyDuration
            ingressNetworkConfiguredDuration := ingressNetworkConfiguredDuration
            ingressLoadBalancerReadyDuration := ingressLoadBalancerReadyDuration
            svcReadyDuration := loc.svcReadyDuration
            raw := [loc.svcCreatedTime, loc.svcConfigurationsReady,
              loc.revisionCreatedTime, loc.revisionReadyTime,
              loc.deploymentCreatedTime, loc.podCreatedTime,
              loc.podScheduledTime, loc.containersReadyTime,
              loc.queueProxyStartedTime, loc.userContrainerStartedTime,
              loc.svcRoutesReady, kpaCreatedTime, kpaActiveTime,
              sksCreatedTime, sksActivatorEndpointsPopulatedTime,
              sksEndpointsPopulatedTime, ingressCreatedTime,
              ingressNetworkConfiguredTime, ingressLoadBalancerReadyTime] },
          st)

/-- Handling of one channel item by a worker (the body of the
`for j := range svcChannel` loop, measure.go:187-366): the malformed-item
check, the top-level service fetch with its NotFound/Fail/NotReady
classification, then the strict short-circuit chain of dependent lookups,
every later error classified `NotReady`.  `st` is the current value of the
loop-external pod-derived duration variables; the returned `PodDurs` is
their value after this item. -/
def processItem (st : PodDurs) (item : List String) (env : TargetEnv) :
    Outcome × PodDurs :=
  if item.length ≠ 2 then (.fail, st)
  else
    match env.svc with
    | .error msg =>
      if goContains msg "not found" then (.notFound, st) else (.fail, st)
    | .ok svcIns =>
      if !svcIns.ready then (.notReady, st)
      else
        let svcCreatedTime := svcIns.created
        let svcConfigurationsReady := svcIns.configurationsReadyTime
        let svcRoutesReady := svcIns.routesReadyTime
        let svcConfigurationsReadyDuration :=
          svcConfigurationsReady - svcCreatedTime
        let svcRoutesReadyDuration := svcRoutesReady - svcCreatedTime
        let svcReadyDuration := svcRoutesReady - svcCreatedTime
        match env.cfg with
        | .error _ => (.notReady, st)
        | .ok _cfgIns =>
          match env.rev with
          | .error _ => (.notReady, st)
          | .ok revisionIns =>
            let revisionCreatedTime := revisionIns.created
            let revisionReadyTime := revisionIns.readyTime
            let revisionReadyDuration := revisionReadyTime - revisionCreatedTime
            match env.pods with
            | .error _ => (.notReady, st)
            | .ok podList =>
              match env.deployment with
              | .error _ => (.notReady, st)
              | .ok deploymentIns =>
                let deploymentCreatedTime := deploymentIns.created
                let deploymentCreatedDuration :=
                  deploymentCreatedTime - revisionCreatedTime
                match podList with
                | [] =>
                  afterPods st
                    { svcCreatedTime, svcConfigurationsReady, svcRoutesReady
                      svcConfigurationsReadyDuration, svcRoutesReadyDuration
                      svcReadyDuration, revisionCreatedTime, revisionReadyTime
                      revisionReadyDuration, deploymentCreatedTime
                      deploymentCreatedDuration
                      podCreatedTime := 0
                      podScheduledTime := 0
                      containersReadyTime := 0
                      queueProxyStartedTime := 0
                      userContrainerStartedTime := 0 } env
                | pod :: _ =>
                  let podCreatedTime := pod.created
                  match getPodCondition pod.conditions "PodScheduled" with
                  | none => (.notReady, st)
                  | some podScheduledTime =>
                    match getPodCondition pod.conditions "ContainersReady" with
                    | none => (.notReady, st)
                    | some containersReadyTime =>
                      let st1 : PodDurs :=
                        { st with
                          podScheduledDuration :=
                            podScheduledTime - podCreatedTime
                          containersReadyDuration :=
                            containersReadyTime - podCreatedTime }
                      match getContainerStatus pod.containerStatuses
                          "queue-proxy" with
                      | none => (.notReady, st1)
                      | some queueProxyStartedTime =>
                        match getContainerStatus pod.containerStatuses
                            "user-container" with
                        | none => (.notReady, st1)
                        | some userContrainerStartedTime =>
                          let st2 : PodDurs :=
                            { st1 with
                              queueProxyStartedDuration :=
                                queueProxyStartedTime - podCreatedTime
                              userContrainerStartedDuration :=
                                userContrainerStartedTime - podCreatedTime }
                          afterPods st2
                            { svcCreatedTime, svcConfigurationsReady
                              svcRoutesReady, svcConfigurationsReadyDuration
                              svcRoutesReadyDuration, svcReadyDuration
                              revisionCreatedTime, revisionReadyTime
                              revisionReadyDuration, deploymentCreatedTime
                              deploymentCreatedDuration, podCreatedTime
                              podScheduledTime, containersReadyTime
                              queueProxyStartedTime
                              userContrainerStartedTime } env

/-- The computed-durations row appended at measure.go:370-387 (column order
of the source; values are `int(duration.Seconds())`, which with
second-precision timestamps is the integer duration itself). -/
def sampleRow (item : List String) (smp : Sample) : Row :=
  { name := item.getD 0 ""
    ns := item.getD 1 ""
    cols := [smp.svcConfigurationsReadyDuration, smp.revisionReadyDuration,
      smp.deploymentCreatedDuration, smp.podScheduledDuration,
      smp.containersReadyDuration, smp.queueProxyStartedDuration,
      smp.userContrainerStartedDuration, smp.svcRoutesReadyDuration,
      smp.kpaActiveDuration, smp.sksReadyDuration,
      smp.sksActivatorEndpointsPopulatedDuration,
      smp.sksEndpointsPopulatedDuration, smp.ingressReadyDuration,
      smp.ingressNetworkConfiguredDuration,
      smp.ingressLoadBalancerReadyDuration, smp.svcReadyDuration] }

/-- The raw-timestamps row appended at measure.go:389-408. -/
def sampleRawRow (item : List String) (smp : Sample) : Row :=
  { name := item.getD 0 ""
    ns := item.getD 1 ""
    cols := smp.raw }

/-- Accumulation of one `Ready` sample into a worker's `MeasureResult`
(measure.go:369 and 445-461): `ReadyCount` is incremented, every per-stage
sum grows by the stage duration in seconds, and the overall-ready duration
is appended to `SvcReadyTime`. -/
def addSample (r : MeasureResult) (smp : Sample) : MeasureResult :=
  { Sums :=
      { SvcConfigurationsReadySum := r.Sums.SvcConfigurationsReadySum +
          (smp.svcConfigurationsReadyDuration : ℚ)
        RevisionReadySum := r.Sums.RevisionReadySum +
          (smp.revisionReadyDuration : ℚ)
        DeploymentCreatedSum := r.Sums.DeploymentCreatedSum +
          (smp.deploymentCreatedDuration : ℚ)
        PodScheduledSum := r.Sums.PodScheduledSum +
          (smp.podScheduledDuration : ℚ)
        ContainersReadySum := r.Sums.ContainersReadySum +
          (smp.containersReadyDuration : ℚ)
        QueueProxyStartedSum := r.Sums.QueueProxyStartedSum +
          (smp.queueProxyStartedDuration : ℚ)
        UserContrainerStartedSum := r.Sums.UserContrainerStartedSum +
          (smp.userContrainerStartedDuration : ℚ)
        SvcRoutesReadySum := r.Sums.SvcRoutesReadySum +
          (smp.svcRoutesReadyDuration : ℚ)
        KpaActiveSum := r.Sums.KpaActiveSum + (smp.kpaActiveDuration : ℚ)
        SksReadySum := r.Sums.SksReadySum + (smp.sksReadyDuration : ℚ)
        SksActivatorEndpointsPopulatedSum :=
          r.Sums.SksActivatorEndpointsPopulatedSum +
            (smp.sksActivatorEndpointsPopulatedDuration : ℚ)
        SksEndpointsPopulatedSum := r.Sums.SksEndpointsPopulatedSum +
          (smp.sksEndpointsPopulatedDuration : ℚ)
        IngressReadySum := r.Sums.IngressReadySum +
          (smp.ingressReadyDuration : ℚ)
        IngressNetworkConfiguredSum := r.Sums.IngressNetworkConfiguredSum +
          (smp.ingressNetworkConfiguredDuration : ℚ)
        IngressLoadBalancerReadySum := r.Sums.IngressLoadBalancerReadySum +
          (smp.ingressLoadBalancerReadyDuration : ℚ)
        SvcReadySum := r.Sums.SvcReadySum + (smp.svcReadyDuration : ℚ) }
    Service := { r.Service with ReadyCount := r.Service.ReadyCount + 1 }
    SvcReadyTime := r.SvcReadyTime ++ [(smp.svcReadyDuration : ℚ)] }

/-- Full state of one worker: the loop-external duration variables, its own
accumulator, the rows it appended to the two shared tables, and the number
of `group.Done()` completion signals it has issued. -/
structure WorkerState where
  podDurs : PodDurs
  result : MeasureResult
  rows : List Row
  rawRows : List Row
  doneCount : Nat
deriving DecidableEq

/-- Worker state before the first channel item. -/
def WorkerState.init : WorkerState :=
  { podDurs := PodDurs.zero
    result := MeasureResult.empty
    rows := []
    rawRows := []
    doneCount := 0 }

/-- One iteration of a worker's channel loop (measure.go:187-465): classify
the item via `processItem`, update exactly one classification counter, on
`Ready` also append the two table rows and accumulate the sample, and in
every case signal completion once (`group.Done()`). -/
def workerStep (env : List String → TargetEnv) (s : WorkerState)
    (item : List String) : WorkerState :=
  let res := processItem s.podDurs item (env item)
  match res.1 with
  | .fail =>
    { s with podDurs := res.2
             result := { s.result with Service :=
               { s.result.Service with
                 FailCount := s.result.Service.FailCount + 1 } }
             doneCount := s.doneCount + 1 }
  | .notFound =>
    { s with podDurs := res.2
             result := { s.result with Service :=
               { s.result.Service with
                 NotFoundCount := s.result.Service.NotFoundCount + 1 } }
             doneCount := s.doneCount + 1 }
  | .notReady =>
    { s with podDurs := res.2
             result := { s.result with Service :=
               { s.result.Service with
                 NotReadyCount := s.result.Service.NotReadyCount + 1 } }
             doneCount := s.doneCount + 1 }
  | .ready smp =>
    { podDurs := res.2
      result := addSample s.result smp
      rows := s.rows ++ [sampleRow item smp]
      rawRows := s.rawRows ++ [sampleRawRow item smp]
      doneCount := s.doneCount + 1 }

/-- A whole worker: fold of `workerStep` over the channel items this worker
consumed, in order, starting from the zero state (measure.go:180-186). -/
def workerRun (env : List String → TargetEnv) (items : List (List String)) :
    WorkerState :=
  items.foldl (workerStep env) WorkerState.init

/-- Field-wise addition of two accumulators, as performed by one iteration
of the merge loop (measure.go:481-501): every sum and counter added, the
`SvcReadyTime` samples concatenated. -/
def addResult (a b : MeasureResult) : MeasureResult :=
  { Sums :=
      { SvcConfigurationsReadySum :=
          a.Sums.SvcConfigurationsReadySum + b.Sums.SvcConfigurationsReadySum
        RevisionReadySum := a.Sums.RevisionReadySum + b.Sums.RevisionReadySum
        DeploymentCreatedSum :=
          a.Sums.DeploymentCreatedSum + b.Sums.DeploymentCreatedSum
        PodScheduledSum := a.Sums.PodScheduledSum + b.Sums.PodScheduledSum
        ContainersReadySum :=
          a.Sums.ContainersReadySum + b.Sums.ContainersReadySum
        QueueProxyStartedSum :=
          a.Sums.QueueProxyStartedSum + b.Sums.QueueProxyStartedSum
        UserContrainerStartedSum :=
          a.Sums.UserContrainerStartedSum + b.Sums.UserContrainerStartedSum
        SvcRoutesReadySum :=
          a.Sums.SvcRoutesReadySum + b.Sums.SvcRoutesReadySum
        KpaActiveSum := a.Sums.KpaActiveSum + b.Sums.KpaActiveSum
        SksReadySum := a.Sums.SksReadySum + b.Sums.SksReadySum
        SksActivatorEndpointsPopulatedSum :=
          a.Sums.SksActivatorEndpointsPopulatedSum +
            b.Sums.SksActivatorEndpointsPopulatedSum
        SksEndpointsPopulatedSum :=
          a.Sums.SksEndpointsPopulatedSum + b.Sums.SksEndpointsPopulatedSum
        IngressReadySum := a.Sums.IngressReadySum + b.Sums.IngressReadySum
        IngressNetworkConfiguredSum :=
          a.Sums.IngressNetworkConfiguredSum +
            b.Sums.IngressNetworkConfiguredSum
        IngressLoadBalancerReadySum :=
          a.Sums.IngressLoadBalancerReadySum +
            b.Sums.IngressLoadBalancerReadySum
        SvcReadySum := a.Sums.SvcReadySum + b.Sums.SvcReadySum }
    Service :=
      { ReadyCount := a.Service.ReadyCount + b.Service.ReadyCount
        NotReadyCount := a.Service.NotReadyCount + b.Service.NotReadyCount
        NotFoundCount := a.Service.NotFoundCount + b.Service.NotFoundCount
        FailCount := a.Service.FailCount + b.Service.FailCount }
    SvcReadyTime := a.SvcReadyTime ++ b.SvcReadyTime }

/-- The aggregator loop (measure.go:480-502): merge the per-worker
accumulators into the zero-initialised `measureFinalResult`, in worker-index
order. -/
def mergeResults (l : List MeasureResult) : MeasureResult :=
  l.foldl addResult MeasureResult.empty

/-- Ordered insertion on rationals for the statistics model. -/
def insertQ (x : ℚ) : List ℚ → List ℚ
  | [] => [x]
  | h :: t => if x ≤ h then x :: h :: t else h :: insertQ x t

/-- Sorted copy of a sample list, as taken by the statistics library. -/
def sortQ (l : List ℚ) : List ℚ :=
  l.foldr insertQ []

/-- Modelled from the external `montanaflynn/stats` library (not under src):
`stats.Median` — sorted copy, mean of the two middle elements for even
length, middle element for odd length.  The library's NaN-on-empty-input is
modelled as 0; the engine only calls this when `ReadyCount > 0`, which makes
the sample non-empty. -/
def statsMedian (l : List ℚ) : ℚ :=
  let c := sortQ l
  let n := c.length
  if n = 0 then 0
  else if n % 2 = 0 then (c.getD (n / 2 - 1) 0 + c.getD (n / 2) 0) / 2
  else c.getD (n / 2) 0

/-- Modelled from the external `montanaflynn/stats` library: `stats.Min`. -/
def statsMin : List ℚ → ℚ
  | [] => 0
  | h :: t => t.foldl min h

/-- Modelled from the external `montanaflynn/stats` library: `stats.Max`. -/
def statsMax : List ℚ → ℚ
  | [] => 0
  | h :: t => t.foldl max h

/-- Modelled from the external `montanaflynn/stats` library:
`stats.Percentile` — on the sorted copy, index `p/100 * n`; a whole index
picks the element just below it, a fractional index above 1 averages the two
straddling elements.  Error returns (empty input, out-of-range percent) are
modelled as 0. -/
def statsPercentile (l : List ℚ) (p : ℚ) : ℚ :=
  match l with
  | [] => 0
  | [x] => x
  | _ =>
    if p ≤ 0 ∨ p > 100 then 0
    else
      let c := sortQ l
      let idx : ℚ := p / 100 * (c.length : ℚ)
      if idx.den = 1 then c.getD (idx.num.toNat - 1) 0
      else if idx > 1 then
        (c.getD (⌊idx⌋.toNat - 1) 0 + c.getD ⌊idx⌋.toNat 0) / 2
      else 0

/-- The statistics fields of `pkg.MeasureResult.Result` computed inside the
`ReadyCount > 0` branch (measure.go:541-660). -/
structure ReportStats where
  AverageSvcConfigurationReadySum : ℚ
  AverageRevisionReadySum : ℚ
  AverageDeploymentCreatedSum : ℚ
  AveragePodScheduledSum : ℚ
  AverageContainersReadySum : ℚ
  AverageQueueProxyStartedSum : ℚ
  AverageUserContrainerStartedSum : ℚ
  AverageKpaActiveSum : ℚ
  AverageSksReadySum : ℚ
  AverageSksActivatorEndpointsPopulatedSum : ℚ
  AverageSksEndpointsPopulatedSum : ℚ
  AverageSvcRoutesReadySum : ℚ
  AverageIngressReadySum : ℚ
  AverageIngressNetworkConfiguredSum : ℚ
  AverageIngressLoadBalancerReadySum : ℚ
  OverallTotal : ℚ
  OverallAverage : ℚ
  OverallMedian : ℚ
  OverallMin : ℚ
  OverallMax : ℚ
  P50 : ℚ
  P90 : ℚ
  P95 : ℚ
  P98 : ℚ
  P99 : ℚ
deriving DecidableEq

/-- The guarded statistics branch (measure.go:541 and 553-660): when the
merged `ReadyCount` is positive, every per-stage average is the stage sum
divided by `ReadyCount` and the overall median/min/max/percentiles are
computed over `SvcReadyTime`; when `ReadyCount` is zero (`else` branch at
measure.go:698-709) no statistic is computed at all and only the
classification counts are reported. -/
def computeStats (r : MeasureResult) : Option ReportStats :=
  if r.Service.ReadyCount > 0 then
    some
      { AverageSvcConfigurationReadySum :=
          r.Sums.SvcConfigurationsReadySum / (r.Service.ReadyCount : ℚ)
        AverageRevisionReadySum :=
          r.Sums.RevisionReadySum / (r.Service.ReadyCount : ℚ)
        AverageDeploymentCreatedSum :=
          r.Sums.DeploymentCreatedSum / (r.Service.ReadyCount : ℚ)
        AveragePodScheduledSum :=
          r.Sums.PodScheduledSum / (r.Service.ReadyCount : ℚ)
        AverageContainersReadySum :=
          r.Sums.ContainersReadySum / (r.Service.ReadyCount : ℚ)
        AverageQueueProxyStartedSum :=
          r.Sums.QueueProxyStartedSum / (r.Service.ReadyCount : ℚ)
        AverageUserContrainerStartedSum :=
          r.Sums.UserContrainerStartedSum / (r.Service.ReadyCount : ℚ)
        AverageKpaActiveSum :=
          r.Sums.KpaActiveSum / (r.Service.ReadyCount : ℚ)
        AverageSksReadySum :=
          r.Sums.SksReadySum / (r.Service.ReadyCount : ℚ)
        AverageSksActivatorEndpointsPopulatedSum :=
          r.Sums.SksActivatorEndpointsPopulatedSum /
            (r.Service.ReadyCount : ℚ)
        AverageSksEndpointsPopulatedSum :=
          r.Sums.SksEndpointsPopulatedSum / (r.Service.ReadyCount : ℚ)
        AverageSvcRoutesReadySum :=
          r.Sums.SvcRoutesReadySum / (r.Service.ReadyCount : ℚ)
        AverageIngressReadySum :=
          r.Sums.IngressReadySum / (r.Service.ReadyCount : ℚ)
        AverageIngressNetworkConfiguredSum :=
          r.Sums.IngressNetworkConfiguredSum / (r.Service.ReadyCount : ℚ)
        AverageIngressLoadBalancerReadySum :=
          r.Sums.IngressLoadBalancerReadySum / (r.Service.ReadyCount : ℚ)
        OverallTotal := r.Sums.SvcReadySum
        OverallAverage := r.Sums.SvcReadySum / (r.Service.ReadyCount : ℚ)
        OverallMedian := statsMedian r.SvcReadyTime
        OverallMin := statsMin r.SvcReadyTime
        OverallMax := statsMax r.SvcReadyTime
        P50 := statsPercentile r.SvcReadyTime 50
        P90 := statsPercentile r.SvcReadyTime 90
        P95 := statsPercentile r.SvcReadyTime 95
        P98 := statsPercentile r.SvcReadyTime 98
        P99 := statsPercentile r.SvcReadyTime 99 }
  else none

/-- Output of a completed run: the merged aggregate, the classification
total of measure.go:532, the two sorted result tables (header rows omitted;
they are constant string rows prepended after the sort at
measure.go:507-531), and the guarded statistics. -/
structure RunOutput where
  result : MeasureResult
  total : Nat
  rows : List Row
  rawRows : List Row
  stats : Option ReportStats

/-- The measurement pipeline after dispatch (measure.go:478-709): run every
worker over the channel items it consumed, merge the per-worker accumulators
in index order, sort both shared tables with `sortSlice`, and compute the
guarded statistics.  The interleaving of the two shared tables before the
sort is scheduler-dependent; it is modelled as the worker-order
concatenation, which `sortSlice` then reorders deterministically. -/
def measureServicesRun (env : List String → TargetEnv)
    (workers : List (List (List String))) : RunOutput :=
  let states := workers.map (workerRun env)
  let merged := mergeResults (states.map (fun s => s.result))
  { result := merged
    total := merged.Service.total
    rows := sortSlice (states.map (fun s => s.rows)).flatten
    rawRows := sortSlice (states.map (fun s => s.rawRows)).flatten
    stats := computeStats merged }

/-- Top-level engine model of `MeasureServices` after target enumeration
(measure.go:468-711): an empty enumerated target list is a fatal
configuration error reported before any item is dispatched to the channel
and before the coordinator blocks on `group.Wait()` (measure.go:468-470);
otherwise the run proceeds with the scheduler's assignment `workers` of the
queue items to the concurrent workers. -/
def MeasureServices (targets : List (List String))
    (env : List String → TargetEnv)
    (workers : List (List (List String))) : Except String RunOutput :=
  if targets.length = 0 then .error "no service found to measure"
  else .ok (measureServicesRun env workers)

/-- A default collaborator state used by concrete witnesses. -/
def envDefault : TargetEnv :=
  { svc := .error "connection refused"
    cfg := .error "e"
    rev := .error "e"
    pods := .error "e"
    deployment := .error "e"
    kpa := .error "e"
    sks := .error "e"
    ingress := .error "e" }

/-- A small concrete accumulator used by the C3 witness. -/
def sampleResult : MeasureResult :=
  { Sums := { SvcSums.zero with SvcReadySum := 5, SvcRoutesReadySum := 5 }
    Service := ⟨1, 2, 3, 4⟩
    SvcReadyTime := [5] }

/-- A fully converged collaborator state used by witnesses: every lookup
succeeds, the pod carries both conditions and both container statuses. -/
def envReady : TargetEnv :=
  { svc := .ok ⟨100, true, 110, 115⟩
    cfg := .ok ⟨"prefix-1-rev"⟩
    rev := .ok ⟨101, 112⟩
    pods := .ok [⟨103, [("PodScheduled", 106), ("ContainersReady", 109)],
      [("queue-proxy", 107), ("user-container", 108)]⟩]
    deployment := .ok ⟨102⟩
    kpa := .ok ⟨104, 111⟩
    sks := .ok ⟨105, 113, 114, 116⟩
    ingress := .ok ⟨106, 117, 119⟩ }

/-- Collaborator state whose top-level fetch fails with a not-found error. -/
def envNotFound : TargetEnv :=
  { envDefault with
    svc := .error "services.serving.knative.dev \x22prefix-1\x22 not found" }

/-- Collaborator state whose top-level fetch succeeds but is not ready. -/
def envNotReady : TargetEnv :=
  { envReady with svc := .ok ⟨100, false, 110, 115⟩ }

/-- Collaborator state that is ready at the top level but whose
configuration lookup errors. -/
def envCfgError : TargetEnv :=
  { envReady with cfg := .error "configuration fetch timeout" }

/-- Outcome property used for the overall-equals-routes invariant: a
`Ready` sample has `svcReadyDuration` equal to `svcRoutesReadyDuration`
(both are computed from the same timestamp pair at measure.go:225-226);
other outcomes carry no sample. -/
def OutcomeRoutesEq : Outcome → Prop
  | .ready smp => smp.svcReadyDuration = smp.svcRoutesReadyDuration
  | .notReady => True
  | .notFound => True
  | .fail => True

/-- Collaborator state identical to `envReady` except that the pod list
comes back empty (the measure.go:276 `len(podList.Items) > 0` test fails). -/
def envEmptyPods : TargetEnv :=
  { envReady with pods := .ok [] }

/-- Per-target collaborator state for the stale-duration scenario: the first
target has a fully populated pod, the second target's pod list is empty. -/
def envStaleScenario (item : List String) : TargetEnv :=
  if item.getD 0 "" = "prefix-2" then envEmptyPods else envReady

/-- Collaborator state that is converged everywhere except that the
autoscaler lookup errors (a dependent lookup deep in the chain, after the
pod section). -/
def envKpaError : TargetEnv :=
  { envReady with kpa := .error "podautoscaler fetch timeout" }

/-- Every channel item bumps the classification total by exactly one: each
branch of the worker loop body increments exactly one of the four
counters. -/
theorem workerStep_total (env : List String → TargetEnv) (s : WorkerState)
    (item : List String) :
    ((workerStep env s item).result.Service).total =
      s.result.Service.total + 1 := by
  unfold workerStep
  cases hpi : (processItem s.podDurs item (env item)).1 <;>
    simp [hpi, SvcCounts.total, addSample] <;> omega

/-- Fold version of `workerStep_total`: a worker's classification total
equals its starting total plus the number of items it consumed. -/
theorem foldl_workerStep_total (env : List String → TargetEnv) :
    ∀ (items : List (List String)) (s : WorkerState),
      ((items.foldl (workerStep env) s).result.Service).total =
        s.result.Service.total + items.length := by
  intro items
  induction items with
  | nil => intro s; simp
  | cons a t ih =>
    intro s
    rw [List.foldl_cons, ih, workerStep_total, List.length_cons]
    omega

/-- The field-wise merge adds the classification totals. -/
theorem addResult_total (a b : MeasureResult) :
    ((addResult a b).Service).total = a.Service.total + b.Service.total := by
  simp [addResult, SvcCounts.total]
  omega

/-- Fold version of `addResult_total` over the merge loop. -/
theorem foldl_addResult_total :
    ∀ (l : List MeasureResult) (z : MeasureResult),
      ((l.foldl addResult z).Service).total =
        z.Service.total + (l.map (fun r => r.Service.total)).sum := by
  intro l
  induction l with
  | nil => intro z; simp
  | cons a t ih =>
    intro z
    rw [List.foldl_cons, ih, addResult_total, List.map_cons, List.sum_cons]
    omega

/-- C1: for every run over a non-empty enumerated target list, after all
workers finish and the per-worker accumulators are merged,
`ReadyCount + NotReadyCount + NotFoundCount + FailCount` in the merged
aggregate equals the number of dispatched targets — every target is
classified exactly once into exactly one bucket. -/
theorem claim1_counts_partition (env : List String → TargetEnv)
    (workers : List (List (List String)))
    (hne : workers.flatten ≠ []) :
    (mergeResults (workers.map (fun w => (workerRun env w).result))).Service.ReadyCount +
      (mergeResults (workers.map (fun w => (workerRun env w).result))).Service.NotReadyCount +
      (mergeResults (workers.map (fun w => (workerRun env w).result))).Service.NotFoundCount +
      (mergeResults (workers.map (fun w => (workerRun env w).result))).Service.FailCount =
      workers.flatten.length := by
  show (mergeResults (workers.map (fun w => (workerRun env w).result))).Service.total = _
  rw [mergeResults, foldl_addResult_total]
  have hz : MeasureResult.empty.Service.total = 0 := rfl
  rw [hz, List.map_map]
  have hmap : (workers.map ((fun r => r.Service.total) ∘
      (fun w => (workerRun env w).result))) = workers.map List.length := by
    apply List.map_congr_left
    intro w _
    show ((workerRun env w).result.Service).total = w.length
    rw [workerRun, foldl_workerStep_total]
    simp [WorkerState.init, MeasureResult.empty, SvcCounts.total]
  rw [hmap, List.length_flatten]
  omega

/-- Witness for C1: one worker, two targets, both failing the top-level
fetch; the merged counts sum to 2. -/
theorem claim1_counts_partition_witness :
    (mergeResults ([[["s-1", "ns"], ["s-2", "ns"]]].map
        (fun w => (workerRun (fun _ => envDefault) w).result))).Service.ReadyCount +
      (mergeResults ([[["s-1", "ns"], ["s-2", "ns"]]].map
        (fun w => (workerRun (fun _ => envDefault) w).result))).Service.NotReadyCount +
      (mergeResults ([[["s-1", "ns"], ["s-2", "ns"]]].map
        (fun w => (workerRun (fun _ => envDefault) w).result))).Service.NotFoundCount +
      (mergeResults ([[["s-1", "ns"], ["s-2", "ns"]]].map
        (fun w => (workerRun (fun _ => envDefault) w).result))).Service.FailCount =
      ([[["s-1", "ns"], ["s-2", "ns"]]] : List (List (List String))).flatten.length :=
  claim1_counts_partition (fun _ => envDefault)
    [[["s-1", "ns"], ["s-2", "ns"]]] (by decide)

/-- C8: an empty enumerated target list is a fatal configuration error for
the whole run: the engine fails immediately with the error
"no service found to measure", before dispatching any target and before
blocking on the pool's completion wait, and produces no output. -/
theorem claim8_empty_targets_fatal (env : List String → TargetEnv)
    (workers : List (List (List String))) :
    MeasureServices [] env workers = .error "no service found to measure" :=
  rfl

/-- C10: a queue item that is not exactly a (name, namespace) pair neither
crashes the worker nor produces data: it increments that worker's
`FailCount` only, writes no result-table rows, changes no sums and no
sample list, and still signals completion for that item. -/
theorem claim10_malformed_item (env : List String → TargetEnv)
    (s : WorkerState) (item : List String) (hlen : item.length ≠ 2) :
    (workerStep env s item).result.Service.FailCount =
        s.result.Service.FailCount + 1 ∧
      (workerStep env s item).result.Service.ReadyCount =
        s.result.Service.ReadyCount ∧
      (workerStep env s item).result.Service.NotReadyCount =
        s.result.Service.NotReadyCount ∧
      (workerStep env s item).result.Service.NotFoundCount =
        s.result.Service.NotFoundCount ∧
      (workerStep env s item).result.Sums = s.result.Sums ∧
      (workerStep env s item).result.SvcReadyTime = s.result.SvcReadyTime ∧
      (workerStep env s item).rows = s.rows ∧
      (workerStep env s item).rawRows = s.rawRows ∧
      (workerStep env s item).doneCount = s.doneCount + 1 := by
  have hpi : processItem s.podDurs item (env item) = (.fail, s.podDurs) := by
    unfold processItem
    rw [if_pos hlen]
  simp [workerStep, hpi]

/-- Witness for C10: a one-element queue item bumps `FailCount` and the
completion counter of a fresh worker to 1. -/
theorem claim10_malformed_item_witness :
    (workerStep (fun _ => envDefault) WorkerState.init ["lonely"]).result.Service.FailCount = 1 ∧
      (workerStep (fun _ => envDefault) WorkerState.init ["lonely"]).doneCount = 1 :=
  ⟨(claim10_malformed_item (fun _ => envDefault) WorkerState.init ["lonely"]
      (by decide)).1,
    (claim10_malformed_item (fun _ => envDefault) WorkerState.init ["lonely"]
      (by decide)).2.2.2.2.2.2.2.2⟩

/-- Any rational-valued field of the merged aggregate that `addResult` adds
field-wise equals the sum of that field over the worker accumulators. -/
theorem foldl_addResult_q (f : MeasureResult → ℚ)
    (hf : ∀ a b, f (addResult a b) = f a + f b) :
    ∀ (l : List MeasureResult) (z : MeasureResult),
      f (l.foldl addResult z) = f z + (l.map f).sum := by
  intro l
  induction l with
  | nil => intro z; simp
  | cons a t ih =>
    intro z
    rw [List.foldl_cons, ih, hf, List.map_cons, List.sum_cons]
    ring

/-- Natural-valued analogue of `foldl_addResult_q` for the classification
counters. -/
theorem foldl_addResult_n (f : MeasureResult → Nat)
    (hf : ∀ a b, f (addResult a b) = f a + f b) :
    ∀ (l : List MeasureResult) (z : MeasureResult),
      f (l.foldl addResult z) = f z + (l.map f).sum := by
  intro l
  induction l with
  | nil => intro z; simp
  | cons a t ih =>
    intro z
    rw [List.foldl_cons, ih, hf, List.map_cons, List.sum_cons]
    omega

/-- A field-wise-added rational field of the merge is invariant under
permuting the worker accumulators. -/
theorem mergeResults_q_perm (f : MeasureResult → ℚ)
    (hf : ∀ a b, f (addResult a b) = f a + f b)
    {l₁ l₂ : List MeasureResult} (h : l₁.Perm l₂) :
    f (mergeResults l₁) = f (mergeResults l₂) := by
  rw [mergeResults, mergeResults, foldl_addResult_q f hf,
    foldl_addResult_q f hf, (h.map f).sum_eq]

/-- A field-wise-added counter field of the merge is invariant under
permuting the worker accumulators. -/
theorem mergeResults_n_perm (f : MeasureResult → Nat)
    (hf : ∀ a b, f (addResult a b) = f a + f b)
    {l₁ l₂ : List MeasureResult} (h : l₁.Perm l₂) :
    f (mergeResults l₁) = f (mergeResults l₂) := by
  rw [mergeResults, mergeResults, foldl_addResult_n f hf,
    foldl_addResult_n f hf, (h.map f).sum_eq]

/-- C3: merging the per-worker accumulators into the global aggregate is
commutative — aggregating any permutation of the worker accumulators yields
identical field-wise sums and classification counts (durations modelled as
exact rationals). -/
theorem claim3_merge_commutative (l₁ l₂ : List MeasureResult)
    (h : l₁.Perm l₂) :
    (mergeResults l₁).Sums = (mergeResults l₂).Sums ∧
      (mergeResults l₁).Service = (mergeResults l₂).Service := by
  constructor
  · apply SvcSums.ext
    · exact mergeResults_q_perm (fun r => r.Sums.SvcConfigurationsReadySum)
        (fun a b => rfl) h
    · exact mergeResults_q_perm (fun r => r.Sums.RevisionReadySum)
        (fun a b => rfl) h
    · exact mergeResults_q_perm (fun r => r.Sums.DeploymentCreatedSum)
        (fun a b => rfl) h
    · exact mergeResults_q_perm (fun r => r.Sums.PodScheduledSum)
        (fun a b => rfl) h
    · exact mergeResults_q_perm (fun r => r.Sums.ContainersReadySum)
        (fun a b => rfl) h
    · exact mergeResults_q_perm (fun r => r.Sums.QueueProxyStartedSum)
        (fun a b => rfl) h
    · exact mergeResults_q_perm (fun r => r.Sums.UserContrainerStartedSum)
        (fun a b => rfl) h
    · exact mergeResults_q_perm (fun r => r.Sums.SvcRoutesReadySum)
        (fun a b => rfl) h
    · exact mergeResults_q_perm (fun r => r.Sums.KpaActiveSum)
        (fun a b => rfl) h
    · exact mergeResults_q_perm (fun r => r.Sums.SksReadySum)
        (fun a b => rfl) h
    · exact mergeResults_q_perm
        (fun r => r.Sums.SksActivatorEndpointsPopulatedSum)
        (fun a b => rfl) h
    · exact mergeResults_q_perm (fun r => r.Sums.SksEndpointsPopulatedSum)
        (fun a b => rfl) h
    · exact mergeResults_q_perm (fun r => r.Sums.IngressReadySum)
        (fun a b => rfl) h
    · exact mergeResults_q_perm (fun r => r.Sums.IngressNetworkConfiguredSum)
        (fun a b => rfl) h
    · exact mergeResults_q_perm (fun r => r.Sums.IngressLoadBalancerReadySum)
        (fun a b => rfl) h
    · exact mergeResults_q_perm (fun r => r.Sums.SvcReadySum)
        (fun a b => rfl) h
  · apply SvcCounts.ext
    · exact mergeResults_n_perm (fun r => r.Service.ReadyCount)
        (fun a b => rfl) h
    · exact mergeResults_n_perm (fun r => r.Service.NotReadyCount)
        (fun a b => rfl) h
    · exact mergeResults_n_perm (fun r => r.Service.NotFoundCount)
        (fun a b => rfl) h
    · exact mergeResults_n_perm (fun r => r.Service.FailCount)
        (fun a b => rfl) h

/-- Witness for C3: swapping two concrete worker accumulators leaves the
merged sums and counts unchanged. -/
theorem claim3_merge_commutative_witness :
    (mergeResults [MeasureResult.empty, sampleResult]).Sums =
        (mergeResults [sampleResult, MeasureResult.empty]).Sums ∧
      (mergeResults [MeasureResult.empty, sampleResult]).Service =
        (mergeResults [sampleResult, MeasureResult.empty]).Service :=
  claim3_merge_commutative [MeasureResult.empty, sampleResult]
    [sampleResult, MeasureResult.empty]
    (List.Perm.swap sampleResult MeasureResult.empty [])

/-- The tail of the resolver chain (autoscaler, serverless service, ingress)
can only classify the target `NotReady` or `Ready`, never `Fail` or
`NotFound`. -/
theorem afterPods_outcomes (st : PodDurs) (loc : ChainLocals)
    (env : TargetEnv) :
    (afterPods st loc env).1 = Outcome.notReady ∨
      ∃ smp, (afterPods st loc env).1 = Outcome.ready smp := by
  unfold afterPods
  rcases hk : env.kpa with _ | kpaIns
  · exact Or.inl rfl
  · rcases hs : env.sks with _ | sksIns
    · exact Or.inl rfl
    · rcases hi : env.ingress with _ | ingressIns
      · exact Or.inl rfl
      · exact Or.inr ⟨_, rfl⟩

/-- The tail of the resolver chain classifies the target `NotReady` whenever
the autoscaler, serverless-service or ingress lookup errors. -/
theorem afterPods_err_notReady (st : PodDurs) (loc : ChainLocals)
    (env : TargetEnv)
    (h : (∃ e, env.kpa = .error e) ∨ (∃ e, env.sks = .error e) ∨
      (∃ e, env.ingress = .error e)) :
    (afterPods st loc env).1 = Outcome.notReady := by
  unfold afterPods
  rcases hk : env.kpa with ek | kpaIns
  · rfl
  · rcases h with ⟨e, he⟩ | h
    · rw [hk] at he
      exact Except.noConfusion he
    rcases hs : env.sks with es | sksIns
    · rfl
    · rcases h with ⟨e, he⟩ | h
      · rw [hs] at he
        exact Except.noConfusion he
      rcases hi : env.ingress with ei | ingressIns
      · rfl
      · rcases h with ⟨e, he⟩
        rw [hi] at he
        exact Except.noConfusion he

/-- C4: classification policy for one well-formed queue item.  A top-level
fetch error containing "not found" classifies `NotFound`; any other
top-level fetch error classifies `Fail`; a fetched service whose readiness
predicate is false classifies `NotReady`; once the top-level object is
fetched and ready, an error in any dependent lookup (configuration,
revision, pods, deployment, autoscaler, mesh, ingress) classifies the item
`NotReady`; and in general after a ready top-level fetch the item can only
end `NotReady` or `Ready` — never `Fail` or `NotFound`. -/
theorem claim4_classification_policy (st : PodDurs) (item : List String)
    (env : TargetEnv) (hlen : item.length = 2) :
    (∀ msg, env.svc = .error msg → goContains msg "not found" = true →
      (processItem st item env).1 = Outcome.notFound) ∧
    (∀ msg, env.svc = .error msg → goContains msg "not found" = false →
      (processItem st item env).1 = Outcome.fail) ∧
    (∀ s, env.svc = .ok s → s.ready = false →
      (processItem st item env).1 = Outcome.notReady) ∧
    (∀ s, env.svc = .ok s → s.ready = true →
      ((∃ e, env.cfg = .error e) ∨ (∃ e, env.rev = .error e) ∨
        (∃ e, env.pods = .error e) ∨ (∃ e, env.deployment = .error e) ∨
        (∃ e, env.kpa = .error e) ∨ (∃ e, env.sks = .error e) ∨
        (∃ e, env.ingress = .error e)) →
      (processItem st item env).1 = Outcome.notReady) ∧
    (∀ s, env.svc = .ok s → s.ready = true →
      (processItem st item env).1 = Outcome.notReady ∨
        ∃ smp, (processItem st item env).1 = Outcome.ready smp) := by
  refine ⟨?_, ?_, ?_, ?_, ?_⟩
  · intro msg hsvc hc
    simp [processItem, hlen, hsvc, hc]
  · intro msg hsvc hc
    simp [processItem, hlen, hsvc, hc]
  · intro s hsvc hr
    simp [processItem, hlen, hsvc, hr]
  · intro s hsvc hr herr
    unfold processItem
    rw [if_neg (by simp [hlen]), hsvc]
    simp only [hr, Bool.not_true, Bool.false_eq_true, if_false]
    rcases hcfg : env.cfg with ecfg | cfgIns
    · rfl
    · rcases herr with ⟨e, he⟩ | herr
      · rw [hcfg] at he
        exact Except.noConfusion he
      rcases hrev : env.rev with erev | revisionIns
      · rfl
      · rcases herr with ⟨e, he⟩ | herr
        · rw [hrev] at he
          exact Except.noConfusion he
        rcases hpods : env.pods with epods | podList
        · rfl
        · rcases herr with ⟨e, he⟩ | herr
          · rw [hpods] at he
            exact Except.noConfusion he
          rcases hdep : env.deployment with edep | deploymentIns
          · rfl
          · rcases herr with ⟨e, he⟩ | herr
            · rw [hdep] at he
              exact Except.noConfusion he
            rcases podList with _ | ⟨pod, rest⟩
            · exact afterPods_err_notReady _ _ _ herr
            · dsimp only
              rcases getPodCondition pod.conditions "PodScheduled"
                with _ | t1
              · rfl
              · dsimp only
                rcases getPodCondition pod.conditions "ContainersReady"
                  with _ | t2
                · rfl
                · dsimp only
                  rcases getContainerStatus pod.containerStatuses
                    "queue-proxy" with _ | q1
                  · rfl
                  · dsimp only
                    rcases getContainerStatus pod.containerStatuses
                      "user-container" with _ | u1
                    · rfl
                    · exact afterPods_err_notReady _ _ _ herr
  · intro s hsvc hr
    unfold processItem
    rw [if_neg (by simp [hlen]), hsvc]
    simp only [hr, Bool.not_true, Bool.false_eq_true, if_false]
    rcases hcfg : env.cfg with _ | cfgIns
    · exact Or.inl rfl
    · rcases hrev : env.rev with _ | revisionIns
      · exact Or.inl rfl
      · rcases hpods : env.pods with _ | podList
        · exact Or.inl rfl
        · rcases hdep : env.deployment with _ | deploymentIns
          · exact Or.inl rfl
          · rcases podList with _ | ⟨pod, rest⟩
            · exact afterPods_outcomes _ _ _
            · dsimp only
              rcases getPodCondition pod.conditions "PodScheduled"
                with _ | t1
              · exact Or.inl rfl
              · dsimp only
                rcases getPodCondition pod.conditions "ContainersReady"
                  with _ | t2
                · exact Or.inl rfl
                · dsimp only
                  rcases getContainerStatus pod.containerStatuses
                    "queue-proxy" with _ | q1
                  · exact Or.inl rfl
                  · dsimp only
                    rcases getContainerStatus pod.containerStatuses
                      "user-container" with _ | u1
                    · exact Or.inl rfl
                    · exact afterPods_outcomes _ _ _

/-- Witness for C4: the classification outcomes at concrete collaborator
states — a not-found top-level error, another top-level error, an unready
service, an erroring configuration lookup (first dependent lookup), an
erroring autoscaler lookup (dependent lookup past the pod section), and the
not-ready-or-ready disjunction at the configuration-error state. -/
theorem claim4_classification_policy_witness :
    (processItem PodDurs.zero ["prefix-1", "ns"] envNotFound).1 =
        Outcome.notFound ∧
      (processItem PodDurs.zero ["prefix-1", "ns"] envDefault).1 =
        Outcome.fail ∧
      (processItem PodDurs.zero ["prefix-1", "ns"] envNotReady).1 =
        Outcome.notReady ∧
      (processItem PodDurs.zero ["prefix-1", "ns"] envCfgError).1 =
        Outcome.notReady ∧
      (processItem PodDurs.zero ["prefix-1", "ns"] envKpaError).1 =
        Outcome.notReady ∧
      ((processItem PodDurs.zero ["prefix-1", "ns"] envCfgError).1 =
          Outcome.notReady ∨
        ∃ smp, (processItem PodDurs.zero ["prefix-1", "ns"] envCfgError).1 =
          Outcome.ready smp) :=
  ⟨(claim4_classification_policy PodDurs.zero ["prefix-1", "ns"] envNotFound
      (by decide)).1 "services.serving.knative.dev \x22prefix-1\x22 not found"
      rfl (by decide),
    (claim4_classification_policy PodDurs.zero ["prefix-1", "ns"] envDefault
      (by decide)).2.1 "connection refused" rfl (by decide),
    (claim4_classification_policy PodDurs.zero ["prefix-1", "ns"] envNotReady
      (by decide)).2.2.1 ⟨100, false, 110, 115⟩ rfl rfl,
    (claim4_classification_policy PodDurs.zero ["prefix-1", "ns"] envCfgError
      (by decide)).2.2.2.1 ⟨100, true, 110, 115⟩ rfl rfl
      (Or.inl ⟨"configuration fetch timeout", rfl⟩),
    (claim4_classification_policy PodDurs.zero ["prefix-1", "ns"] envKpaError
      (by decide)).2.2.2.1 ⟨100, true, 110, 115⟩ rfl rfl
      (Or.inr (Or.inr (Or.inr (Or.inr
        (Or.inl ⟨"podautoscaler fetch timeout", rfl⟩))))),
    (claim4_classification_policy PodDurs.zero ["prefix-1", "ns"] envCfgError
      (by decide)).2.2.2.2 ⟨100, true, 110, 115⟩ rfl rfl⟩

/-- C5: when the merged `ReadyCount` is zero no statistic (average, median,
min/max, percentile) is computed at all — the guarded branch reports only
classification counts and no division is attempted — and when
`ReadyCount > 0` every per-stage average equals the stage sum divided by
`ReadyCount`. -/
theorem claim5_stats_guard (r : MeasureResult) :
    (r.Service.ReadyCount = 0 → computeStats r = none) ∧
    (0 < r.Service.ReadyCount → ∃ st, computeStats r = some st ∧
      st.AverageSvcConfigurationReadySum =
        r.Sums.SvcConfigurationsReadySum / (r.Service.ReadyCount : ℚ) ∧
      st.AverageRevisionReadySum =
        r.Sums.RevisionReadySum / (r.Service.ReadyCount : ℚ) ∧
      st.AverageDeploymentCreatedSum =
        r.Sums.DeploymentCreatedSum / (r.Service.ReadyCount : ℚ) ∧
      st.AveragePodScheduledSum =
        r.Sums.PodScheduledSum / (r.Service.ReadyCount : ℚ) ∧
      st.AverageContainersReadySum =
        r.Sums.ContainersReadySum / (r.Service.ReadyCount : ℚ) ∧
      st.AverageQueueProxyStartedSum =
        r.Sums.QueueProxyStartedSum / (r.Service.ReadyCount : ℚ) ∧
      st.AverageUserContrainerStartedSum =
        r.Sums.UserContrainerStartedSum / (r.Service.ReadyCount : ℚ) ∧
      st.AverageKpaActiveSum =
        r.Sums.KpaActiveSum / (r.Service.ReadyCount : ℚ) ∧
      st.AverageSksReadySum =
        r.Sums.SksReadySum / (r.Service.ReadyCount : ℚ) ∧
      st.AverageSksActivatorEndpointsPopulatedSum =
        r.Sums.SksActivatorEndpointsPopulatedSum /
          (r.Service.ReadyCount : ℚ) ∧
      st.AverageSksEndpointsPopulatedSum =
        r.Sums.SksEndpointsPopulatedSum / (r.Service.ReadyCount : ℚ) ∧
      st.AverageSvcRoutesReadySum =
        r.Sums.SvcRoutesReadySum / (r.Service.ReadyCount : ℚ) ∧
      st.AverageIngressReadySum =
        r.Sums.IngressReadySum / (r.Service.ReadyCount : ℚ) ∧
      st.AverageIngressNetworkConfiguredSum =
        r.Sums.IngressNetworkConfiguredSum / (r.Service.ReadyCount : ℚ) ∧
      st.AverageIngressLoadBalancerReadySum =
        r.Sums.IngressLoadBalancerReadySum / (r.Service.ReadyCount : ℚ) ∧
      st.OverallAverage =
        r.Sums.SvcReadySum / (r.Service.ReadyCount : ℚ)) := by
  constructor
  · intro h0
    unfold computeStats
    rw [if_neg]
    omega
  · intro hpos
    unfold computeStats
    rw [if_pos hpos]
    exact ⟨_, rfl, rfl, rfl, rfl, rfl, rfl, rfl, rfl, rfl, rfl, rfl, rfl,
      rfl, rfl, rfl, rfl, rfl⟩

/-- Witness for C5: a zero-ready aggregate yields no statistics record; a
one-ready aggregate yields one. -/
theorem claim5_stats_guard_witness :
    computeStats MeasureResult.empty = none ∧
      (computeStats sampleResult).isSome = true := by
  constructor
  · exact (claim5_stats_guard MeasureResult.empty).1 rfl
  · rcases (claim5_stats_guard sampleResult).2 (by decide) with ⟨st, hst, -⟩
    rw [hst]
    rfl

/-- The chain tail preserves the overall-equals-routes property: the sample
fields come from the `ChainLocals` unchanged. -/
theorem afterPods_routes_eq (st : PodDurs) (loc : ChainLocals)
    (env : TargetEnv)
    (hloc : loc.svcReadyDuration = loc.svcRoutesReadyDuration) :
    OutcomeRoutesEq (afterPods st loc env).1 := by
  unfold afterPods
  rcases env.kpa with _ | kpaIns
  · trivial
  · rcases env.sks with _ | sksIns
    · trivial
    · rcases env.ingress with _ | ingressIns
      · trivial
      · exact hloc

/-- Every outcome of one resolver-chain iteration satisfies the
overall-equals-routes property: both durations are assigned the same
subtraction `svcRoutesReady − svcCreatedTime`. -/
theorem processItem_routes_eq (st : PodDurs) (item : List String)
    (env : TargetEnv) : OutcomeRoutesEq (processItem st item env).1 := by
  unfold processItem
  by_cases hlen : item.length ≠ 2
  · rw [if_pos hlen]
    trivial
  · rw [if_neg hlen]
    rcases env.svc with msg | s
    · dsimp only
      by_cases hc : goContains msg "not found" = true
      · rw [if_pos hc]
        trivial
      · rw [if_neg hc]
        trivial
    · dsimp only
      cases hr : s.ready
      · trivial
      · rw [if_neg (by simp)]
        rcases env.cfg with _ | cfgIns
        · trivial
        · rcases env.rev with _ | revisionIns
          · trivial
          · rcases env.pods with _ | podList
            · trivial
            · rcases env.deployment with _ | deploymentIns
              · trivial
              · rcases podList with _ | ⟨pod, rest⟩
                · exact afterPods_routes_eq _ _ _ rfl
                · dsimp only
                  rcases getPodCondition pod.conditions "PodScheduled"
                    with _ | t1
                  · trivial
                  · dsimp only
                    rcases getPodCondition pod.conditions "ContainersReady"
                      with _ | t2
                    · trivial
                    · dsimp only
                      rcases getContainerStatus pod.containerStatuses
                        "queue-proxy" with _ | q1
                      · trivial
                      · dsimp only
                        rcases getContainerStatus pod.containerStatuses
                          "user-container" with _ | u1
                        · trivial
                        · exact afterPods_routes_eq _ _ _ rfl

/-- One worker-loop iteration preserves the overall-equals-routes invariant
over the accumulator sums, the appended rows, and the percentile input
list. -/
theorem workerStep_routes_inv (env : List String → TargetEnv)
    (s : WorkerState) (item : List String)
    (h1 : s.result.Sums.SvcReadySum = s.result.Sums.SvcRoutesReadySum)
    (h2 : ∀ r ∈ s.rows, r.cols.getD 15 0 = r.cols.getD 7 0)
    (h3 : s.result.SvcReadyTime =
      s.rows.map (fun r => ((r.cols.getD 7 0 : Int) : ℚ))) :
    (workerStep env s item).result.Sums.SvcReadySum =
        (workerStep env s item).result.Sums.SvcRoutesReadySum ∧
      (∀ r ∈ (workerStep env s item).rows,
        r.cols.getD 15 0 = r.cols.getD 7 0) ∧
      (workerStep env s item).result.SvcReadyTime =
        (workerStep env s item).rows.map
          (fun r => ((r.cols.getD 7 0 : Int) : ℚ)) := by
  have hpi := processItem_routes_eq s.podDurs item (env item)
  unfold workerStep
  dsimp only
  cases hout : (processItem s.podDurs item (env item)).1 with
  | ready smp =>
    have heq : smp.svcReadyDuration = smp.svcRoutesReadyDuration := by
      rw [hout] at hpi
      exact hpi
    refine ⟨?_, ?_, ?_⟩
    · show s.result.Sums.SvcReadySum + (smp.svcReadyDuration : ℚ) =
        s.result.Sums.SvcRoutesReadySum + (smp.svcRoutesReadyDuration : ℚ)
      rw [h1, heq]
    · show ∀ r ∈ s.rows ++ [sampleRow item smp],
        r.cols.getD 15 0 = r.cols.getD 7 0
      intro r hr
      rcases List.mem_append.1 hr with hmem | hmem
      · exact h2 r hmem
      · have hr2 : r = sampleRow item smp := List.mem_singleton.1 hmem
        subst hr2
        show smp.svcReadyDuration = smp.svcRoutesReadyDuration
        exact heq
    · show s.result.SvcReadyTime ++ [(smp.svcReadyDuration : ℚ)] =
        (s.rows ++ [sampleRow item smp]).map
          (fun r => ((r.cols.getD 7 0 : Int) : ℚ))
      rw [List.map_append, h3, heq]
      rfl
  | notReady => exact ⟨h1, h2, h3⟩
  | notFound => exact ⟨h1, h2, h3⟩
  | fail => exact ⟨h1, h2, h3⟩

/-- Fold version of `workerStep_routes_inv` over a worker's whole item
list. -/
theorem foldl_workerStep_routes (env : List String → TargetEnv) :
    ∀ (items : List (List String)) (s : WorkerState),
      (s.result.Sums.SvcReadySum = s.result.Sums.SvcRoutesReadySum ∧
        (∀ r ∈ s.rows, r.cols.getD 15 0 = r.cols.getD 7 0) ∧
        s.result.SvcReadyTime =
          s.rows.map (fun r => ((r.cols.getD 7 0 : Int) : ℚ))) →
      ((items.foldl (workerStep env) s).result.Sums.SvcReadySum =
          (items.foldl (workerStep env) s).result.Sums.SvcRoutesReadySum ∧
        (∀ r ∈ (items.foldl (workerStep env) s).rows,
          r.cols.getD 15 0 = r.cols.getD 7 0) ∧
        (items.foldl (workerStep env) s).result.SvcReadyTime =
          (items.foldl (workerStep env) s).rows.map
            (fun r => ((r.cols.getD 7 0 : Int) : ℚ))) := by
  intro items
  induction items with
  | nil => intro s h; exact h
  | cons a t ih =>
    intro s h
    rw [List.foldl_cons]
    exact ih _ (workerStep_routes_inv env s a h.1 h.2.1 h.2.2)

/-- C7: for every target classified `Ready`, the overall-ready duration
equals the routes-ready duration, because both are computed from the same
timestamp pair; the equality holds in the per-worker sums
(`SvcReadySum = SvcRoutesReadySum`), in every appended row (column 15,
`overall_ready`, equals column 7, `route_ready`), and in the percentile
input sequence (`SvcReadyTime` is exactly the routes-ready column of the
appended rows). -/
theorem claim7_overall_eq_routes (env : List String → TargetEnv)
    (items : List (List String)) :
    (workerRun env items).result.Sums.SvcReadySum =
        (workerRun env items).result.Sums.SvcRoutesReadySum ∧
      (∀ r ∈ (workerRun env items).rows,
        r.cols.getD 15 0 = r.cols.getD 7 0) ∧
      (workerRun env items).result.SvcReadyTime =
        (workerRun env items).rows.map
          (fun r => ((r.cols.getD 7 0 : Int) : ℚ)) :=
  foldl_workerStep_routes env items WorkerState.init
    ⟨rfl, by intro r hr; simp [WorkerState.init] at hr, rfl⟩

/-- Witness for C7: a one-target worker with a fully converged collaborator
state; the sums agree and the produced row has equal overall and routes
columns. -/
theorem claim7_overall_eq_routes_witness :
    (workerRun (fun _ => envReady) [["prefix-1", "ns"]]).result.Sums.SvcReadySum =
        (workerRun (fun _ => envReady) [["prefix-1", "ns"]]).result.Sums.SvcRoutesReadySum ∧
      (Row.mk "prefix-1" "ns"
          [10, 11, 1, 3, 6, 4, 5, 15, 7, 11, 8, 9, 13, 11, 2, 15]).cols.getD 15 0 =
        (Row.mk "prefix-1" "ns"
          [10, 11, 1, 3, 6, 4, 5, 15, 7, 11, 8, 9, 13, 11, 2, 15]).cols.getD 7 0 :=
  ⟨(claim7_overall_eq_routes (fun _ => envReady) [["prefix-1", "ns"]]).1,
    (claim7_overall_eq_routes (fun _ => envReady) [["prefix-1", "ns"]]).2.1
      (Row.mk "prefix-1" "ns"
        [10, 11, 1, 3, 6, 4, 5, 15, 7, 11, 8, 9, 13, 11, 2, 15])
      (by decide)⟩

/-- C2 (failing input): a worker first measures `prefix-1` (pods present,
pod-derived durations 3, 6, 4, 5 seconds), then `prefix-2` whose pod list
is empty.  Because the four pod-derived duration variables are declared
outside the channel loop (measure.go:182-185) and are only reassigned in
the non-empty-pod branch, the `prefix-2` row records the stale values
3, 6, 4, 5 of the previous target instead of the zero values the
specification describes — the row columns checked are `pod_scheduled`,
`containers_ready`, `queue-proxy_started`, `user-container_started`. -/
theorem claim2_stale_pod_durations :
    ((workerRun envStaleScenario
        [["prefix-1", "ns"], ["prefix-2", "ns"]]).rows.map
      (fun r => (r.name, r.cols.getD 3 0, r.cols.getD 4 0,
        r.cols.getD 5 0, r.cols.getD 6 0))) =
      [("prefix-1", 3, 6, 4, 5), ("prefix-2", 3, 6, 4, 5)] := by
  decide

/-- Ordered insertion produces a permutation of consing. -/
theorem insertRow_perm (r : Row) (l : List Row) :
    (insertRow r l).Perm (r :: l) := by
  induction l with
  | nil => exact List.Perm.refl _
  | cons h t ih =>
    unfold insertRow
    by_cases hc : rowKey r ≤ rowKey h
    · rw [if_pos hc]
    · rw [if_neg hc]
      exact (ih.cons h).trans (List.Perm.swap r h t)

/-- The `sortSlice` model permutes its input. -/
theorem sortSlice_perm (l : List Row) : (sortSlice l).Perm l := by
  induction l with
  | nil => exact List.Perm.refl _
  | cons h t ih =>
    exact (insertRow_perm h (sortSlice t)).trans (ih.cons h)

/-- Ordered insertion preserves comparator sortedness. -/
theorem insertRow_pairwise (r : Row) (l : List Row)
    (h : l.Pairwise rowLe) : (insertRow r l).Pairwise rowLe := by
  induction l with
  | nil => simp [insertRow]
  | cons a t ih =>
    rw [List.pairwise_cons] at h
    unfold insertRow
    by_cases hc : rowKey r ≤ rowKey a
    · rw [if_pos hc]
      rw [List.pairwise_cons]
      refine ⟨?_, List.pairwise_cons.2 h⟩
      intro x hx
      rcases List.mem_cons.1 hx with hx | hx
      · rw [hx]
        exact hc
      · exact le_trans hc (h.1 x hx)
    · rw [if_neg hc]
      rw [List.pairwise_cons]
      refine ⟨?_, ih h.2⟩
      intro x hx
      have hx2 : x ∈ r :: t := (insertRow_perm r t).mem_iff.1 hx
      rcases List.mem_cons.1 hx2 with hx2 | hx2
      · rw [hx2]
        exact le_of_lt (lt_of_not_ge hc)
      · exact h.1 x hx2

/-- The output of the `sortSlice` model is ordered by the comparator. -/
theorem sortSlice_pairwise (l : List Row) : (sortSlice l).Pairwise rowLe := by
  induction l with
  | nil => simp [sortSlice]
  | cons h t ih => exact insertRow_pairwise h (sortSlice t) ih

/-- A comparator-sorted row list with pairwise-distinct sort keys is sorted
by the strict comparator. -/
theorem pairwise_lt_of_le_nodup (l : List Row) (hs : l.Pairwise rowLe)
    (hn : (l.map rowKey).Nodup) : l.Pairwise rowLt := by
  induction l with
  | nil => exact List.Pairwise.nil
  | cons a t ih =>
    rw [List.pairwise_cons] at hs
    rw [List.map_cons, List.nodup_cons] at hn
    rw [List.pairwise_cons]
    refine ⟨?_, ih hs.2 hn.2⟩
    intro x hx
    have hne : rowKey a ≠ rowKey x := by
      intro heq
      exact hn.1 (heq ▸ List.mem_map_of_mem rowKey hx)
    exact lt_of_le_of_ne (hs.1 x hx) hne

/-- C6: after merge the result tables are sorted by the numeric suffix
embedded after the dash in the target name, numerically and not
lexicographically: rows for targets `prefix-3`, `prefix-1`, `prefix-10`
come out ordered `prefix-1`, `prefix-3`, `prefix-10`, whatever the
completion order (input permutation) was. -/
theorem claim6_numeric_suffix_sort (a b c : Row)
    (ha : a.name = "prefix-3") (hb : b.name = "prefix-1")
    (hc : c.name = "prefix-10") (l : List Row)
    (hp : l.Perm [a, b, c]) : sortSlice l = [b, a, c] := by
  have ka : rowKey a = 3 := by
    unfold rowKey rowIndex
    rw [ha]
    decide
  have kb : rowKey b = 1 := by
    unfold rowKey rowIndex
    rw [hb]
    decide
  have kc : rowKey c = 10 := by
    unfold rowKey rowIndex
    rw [hc]
    decide
  have hperm2 : (sortSlice l).Perm [b, a, c] :=
    (sortSlice_perm l).trans (hp.trans (List.Perm.swap b a [c]))
  have hnodup : ((sortSlice l).map rowKey).Nodup := by
    apply (List.Perm.nodup_iff (hperm2.map rowKey)).2
    rw [List.map_cons, List.map_cons, List.map_cons, List.map_nil,
      ka, kb, kc]
    decide
  have hlt1 : (sortSlice l).Pairwise rowLt :=
    pairwise_lt_of_le_nodup _ (sortSlice_pairwise l) hnodup
  have hlt2 : ([b, a, c] : List Row).Pairwise rowLt := by
    rw [List.pairwise_cons, List.pairwise_cons]
    refine ⟨?_, ?_, List.pairwise_singleton _ _⟩
    · intro x hx
      rcases List.mem_cons.1 hx with hx | hx
      · rw [rowLt, hx, ka, kb]
        decide
      · rw [List.mem_singleton.1 hx, rowLt, kb, kc]
        decide
    · intro x hx
      rw [List.mem_singleton.1 hx, rowLt, ka, kc]
      decide
  haveI : IsAntisymm Row rowLt :=
    ⟨fun x y hxy hyx => absurd hxy (lt_asymm hyx)⟩
  exact List.eq_of_perm_of_sorted hperm2 hlt1 hlt2

/-- Witness for C6: the three concrete rows in enumeration order sort into
numeric-suffix order. -/
theorem claim6_numeric_suffix_sort_witness :
    sortSlice [Row.mk "prefix-3" "ns" [], Row.mk "prefix-1" "ns" [],
        Row.mk "prefix-10" "ns" []] =
      [Row.mk "prefix-1" "ns" [], Row.mk "prefix-3" "ns" [],
        Row.mk "prefix-10" "ns" []] :=
  claim6_numeric_suffix_sort _ _ _ rfl rfl rfl _ (List.Perm.refl _)

/-- Splitting a character list that does not contain the separator yields a
single segment. -/
theorem splitOnChar_no_sep (sep : Char) :
    ∀ (l : List Char), (∀ ch ∈ l, ch ≠ sep) → splitOnChar sep l = [l] := by
  intro l
  induction l with
  | nil => intro h; rfl
  | cons c t ih =>
    intro h
    have hc : c ≠ sep := h c (List.mem_cons_self c t)
    have ht := ih (fun ch hch => h ch (List.mem_cons_of_mem c hch))
    simp [splitOnChar, ht, hc]

/-- C9: the row comparator assumes every service name contains a dash.  For
a name with no dash the split has a single segment, so reading segment 1
runs past the end of the split result (the Go comparator panics; modelled as
`none`); and for a name whose second segment is not a number the parse
error is silently dropped and the sort key is 0. -/
theorem claim9_sort_key_assumptions :
    (∀ s : String, (∀ ch ∈ s.toList, ch ≠ '-') →
      (splitOnChar '-' s.toList).length = 1 ∧ rowIndex s = none) ∧
      rowIndex "prefix-abc" = some 0 := by
  constructor
  · intro s hs
    constructor
    · rw [splitOnChar_no_sep '-' s.toList hs]
      rfl
    · unfold rowIndex
      rw [splitOnChar_no_sep '-' s.toList hs]
      rfl
  · decide

/-- Witness for C9: the dash-free name "abc" and the non-numeric suffix
"prefix-abc" at concrete inputs. -/
theorem claim9_sort_key_assumptions_witness :
    ((splitOnChar '-' "abc".toList).length = 1 ∧ rowIndex "abc" = none) ∧
      rowIndex "prefix-abc" = some 0 :=
  ⟨claim9_sort_key_assumptions.1 "abc" (by decide),
    claim9_sort_key_assumptions.2⟩
